import Mathlib

/-!
Verification of the `protoid` repository (file `src/protoid.py`).

The program computes a short protocol identifier from a version string:
`protoid` hashes its argument with SHA-512 (via `hashlib.sha512`), renders
the 64-byte digest as a 128-character lowercase hexadecimal string, takes
the first 8 characters and prepends the literal `0x`.  A `__main__` block
reads `sys.argv`, picks the first argument (or the default
`Testing v0.1`) and prints two labelled lines.

The development embeds the program at two levels:

1. Byte level (`Protoid.sha512`, `Protoid.protoid`): the computation on the
   byte representation of the input, exactly as it runs when `sha512`
   receives a byte string.  `hashlib.sha512` is embedded as the FIPS 180-4
   SHA-512 algorithm over `Nat` with explicit reduction modulo `2 ^ 64`.
   The embedding is validated below on the standard test vectors (the
   well-known empty-message digest).

2. Python-3 value level (`Protoid.protoidPy`): `src/protoid.py` contains no
   encoding step, so under Python 3 dynamic typing `sha512` rejects every
   `str` argument with `TypeError` before hashing, while every `bytes`
   argument is hashed directly.  `PyVal` distinguishes the two runtime
   types and `PyError` records the only error the program can produce
   (`hashlib` raising `TypeError`; no `EncodingError` type exists anywhere
   in the program).

The command-line block is embedded as a function from `sys.argv` to the
list of lines written to standard output, again at both levels
(`Protoid.cliLines` for the successful byte-semantics run, and
`Protoid.cliOutPy` for the Python-3 run in which the second `print` can
fail after the first line has already been written).
-/

namespace Protoid

/-- The modulus of 64-bit machine words used throughout SHA-512. -/
def w64 : Nat := 2 ^ 64

/-- Addition modulo `2 ^ 64`. -/
def add64 (a b : Nat) : Nat := (a + b) % w64

/-- Bitwise complement of a 64-bit word. -/
def not64 (x : Nat) : Nat := x ^^^ (w64 - 1)

/-- Right rotation of a 64-bit word by `n` positions. -/
def rotr (n x : Nat) : Nat := ((x >>> n) ||| (x <<< (64 - n))) % w64

/-- The SHA-2 choice function `Ch`. -/
def ch (x y z : Nat) : Nat := (x &&& y) ^^^ (not64 x &&& z)

/-- The SHA-2 majority function `Maj`. -/
def maj (x y z : Nat) : Nat := (x &&& y) ^^^ (x &&& z) ^^^ (y &&& z)

/-- SHA-512 `Σ₀`. -/
def bigSigma0 (x : Nat) : Nat := rotr 28 x ^^^ rotr 34 x ^^^ rotr 39 x

/-- SHA-512 `Σ₁`. -/
def bigSigma1 (x : Nat) : Nat := rotr 14 x ^^^ rotr 18 x ^^^ rotr 41 x

/-- SHA-512 `σ₀`. -/
def smallSigma0 (x : Nat) : Nat := rotr 1 x ^^^ rotr 8 x ^^^ (x >>> 7)

/-- SHA-512 `σ₁`. -/
def smallSigma1 (x : Nat) : Nat := rotr 19 x ^^^ rotr 61 x ^^^ (x >>> 6)

/-- The 80 SHA-512 round constants `K₀ … K₇₉` of FIPS 180-4. -/
def roundConstants : List Nat :=
  [0x428A2F98D728AE22, 0x7137449123EF65CD, 0xB5C0FBCFEC4D3B2F,
   0xE9B5DBA58189DBBC, 0x3956C25BF348B538, 0x59F111F1B605D019,
   0x923F82A4AF194F9B, 0xAB1C5ED5DA6D8118, 0xD807AA98A3030242,
   0x12835B0145706FBE, 0x243185BE4EE4B28C, 0x550C7DC3D5FFB4E2,
   0x72BE5D74F27B896F, 0x80DEB1FE3B1696B1, 0x9BDC06A725C71235,
   0xC19BF174CF692694, 0xE49B69C19EF14AD2, 0xEFBE4786384F25E3,
   0x0FC19DC68B8CD5B5, 0x240CA1CC77AC9C65, 0x2DE92C6F592B0275,
   0x4A7484AA6EA6E483, 0x5CB0A9DCBD41FBD4, 0x76F988DA831153B5,
   0x983E5152EE66DFAB, 0xA831C66D2DB43210, 0xB00327C898FB213F,
   0xBF597FC7BEEF0EE4, 0xC6E00BF33DA88FC2, 0xD5A79147930AA725,
   0x06CA6351E003826F, 0x142929670A0E6E70, 0x27B70A8546D22FFC,
   0x2E1B21385C26C926, 0x4D2C6DFC5AC42AED, 0x53380D139D95B3DF,
   0x650A73548BAF63DE, 0x766A0ABB3C77B2A8, 0x81C2C92E47EDAEE6,
   0x92722C851482353B, 0xA2BFE8A14CF10364, 0xA81A664BBC423001,
   0xC24B8B70D0F89791, 0xC76C51A30654BE30, 0xD192E819D6EF5218,
   0xD69906245565A910, 0xF40E35855771202A, 0x106AA07032BBD1B8,
   0x19A4C116B8D2D0C8, 0x1E376C085141AB53, 0x2748774CDF8EEB99,
   0x34B0BCB5E19B48A8, 0x391C0CB3C5C95A63, 0x4ED8AA4AE3418ACB,
   0x5B9CCA4F7763E373, 0x682E6FF3D6B2B8A3, 0x748F82EE5DEFB2FC,
   0x78A5636F43172F60, 0x84C87814A1F0AB72, 0x8CC702081A6439EC,
   0x90BEFFFA23631E28, 0xA4506CEBDE82BDE9, 0xBEF9A3F7B2C67915,
   0xC67178F2E372532B, 0xCA273ECEEA26619C, 0xD186B8C721C0C207,
   0xEADA7DD6CDE0EB1E, 0xF57D4F7FEE6ED178, 0x06F067AA72176FBA,
   0x0A637DC5A2C898A6, 0x113F9804BEF90DAE, 0x1B710B35131C471B,
   0x28DB77F523047D84, 0x32CAAB7B40C72493, 0x3C9EBE0A15C9BEBC,
   0x431D67C49C100D4C, 0x4CC5D4BECB3E42B6, 0x597F299CFC657E2A,
   0x5FCB6FAB3AD6FAEC, 0x6C44198C4A475817]

/-- The eight 64-bit working variables of the SHA-512 state. -/
structure HashState where
  a : Nat
  b : Nat
  c : Nat
  d : Nat
  e : Nat
  f : Nat
  g : Nat
  h : Nat

/-- The SHA-512 initial hash value `H⁽⁰⁾` of FIPS 180-4. -/
def initState : HashState :=
  ⟨0x6A09E667F3BCC908, 0xBB67AE8584CAA73B, 0x3C6EF372FE94F82B,
   0xA54FF53A5F1D36F1, 0x510E527FADE682D1, 0x9B05688C2B3E6C1F,
   0x1F83D9ABFB41BD6B, 0x5BE0CD19137E2179⟩

/-- The 16-byte big-endian encoding of the message bit length. -/
def lengthBytes (n : Nat) : List Nat :=
  (List.range 16).map (fun i => n / 2 ^ (8 * (15 - i)) % 256)

/-- SHA-512 padding: append `0x80`, then zero bytes up to 112 modulo 128,
then the 128-bit big-endian bit length, so that the padded length is a
multiple of the 128-byte block size. -/
def padMessage (bs : List Nat) : List Nat :=
  bs ++ [0x80] ++ List.replicate ((128 - (bs.length + 17) % 128) % 128) 0
     ++ lengthBytes (8 * bs.length)

/-- Big-endian interpretation of a byte list as a word. -/
def beWord (bytes : List Nat) : Nat := bytes.foldl (fun acc b => acc * 256 + b) 0

/-- The sixteen 64-bit message words of one 128-byte block. -/
def wordsOfBlock (blk : List Nat) : List Nat :=
  (List.range 16).map (fun i => beWord ((blk.drop (8 * i)).take 8))

/-- One extension step of the message schedule: append
`σ₁(W[t-2]) + W[t-7] + σ₀(W[t-15]) + W[t-16]`. -/
def scheduleStep (ws : List Nat) : List Nat :=
  let n := ws.length
  ws ++ [add64 (add64 (smallSigma1 (ws.getD (n - 2) 0)) (ws.getD (n - 7) 0))
              (add64 (smallSigma0 (ws.getD (n - 15) 0)) (ws.getD (n - 16) 0))]

/-- The full 80-word message schedule `W₀ … W₇₉` of one block. -/
def messageSchedule (blk : List Nat) : List Nat :=
  (List.range 64).foldl (fun ws _ => scheduleStep ws) (wordsOfBlock blk)

/-- One SHA-512 round, consuming the pair of the round constant and the
scheduled message word. -/
def roundStep (st : HashState) (kw : Nat × Nat) : HashState :=
  let t1 := add64 st.h (add64 (bigSigma1 st.e) (add64 (ch st.e st.f st.g) (add64 kw.1 kw.2)))
  let t2 := add64 (bigSigma0 st.a) (maj st.a st.b st.c)
  ⟨add64 t1 t2, st.a, st.b, st.c, add64 st.d t1, st.e, st.f, st.g⟩

/-- Process one 128-byte block: run the 80 rounds and add the result to the
incoming state. -/
def processBlock (st : HashState) (blk : List Nat) : HashState :=
  let ws := messageSchedule blk
  let r := (roundConstants.zip ws).foldl roundStep st
  ⟨add64 st.a r.a, add64 st.b r.b, add64 st.c r.c, add64 st.d r.d,
   add64 st.e r.e, add64 st.f r.f, add64 st.g r.g, add64 st.h r.h⟩

/-- The eight big-endian bytes of a 64-bit word. -/
def bytesOfWord (w : Nat) : List Nat :=
  [w / 2 ^ 56 % 256, w / 2 ^ 48 % 256, w / 2 ^ 40 % 256, w / 2 ^ 32 % 256,
   w / 2 ^ 24 % 256, w / 2 ^ 16 % 256, w / 2 ^ 8 % 256, w % 256]

/-- SHA-512 of a byte list: pad, split into 128-byte blocks, fold the
compression function from the initial state, and serialize the final eight
words big-endian.  This is the embedding of `hashlib.sha512(...).digest()`
used on line 5 of `src/protoid.py`. -/
def sha512 (bs : List Nat) : List Nat :=
  let padded := padMessage bs
  let blocks := (List.range (padded.length / 128)).map
    (fun i => (padded.drop (128 * i)).take 128)
  let final := blocks.foldl processBlock initState
  [final.a, final.b, final.c, final.d, final.e, final.f, final.g, final.h].flatMap bytesOfWord

/-- Lowercase hexadecimal character of a value below 16, as produced by the
`%x` rendering that `hexdigest` uses. -/
def hexChar (n : Nat) : Char :=
  if n < 10 then Char.ofNat (48 + n) else Char.ofNat (87 + n)

/-- The two lowercase hexadecimal characters of one byte. -/
def hexByte (b : Nat) : List Char := [hexChar (b / 16), hexChar (b % 16)]

/-- Lowercase hexadecimal rendering of a byte list. -/
def hexOfBytes (bs : List Nat) : List Char := bs.flatMap hexByte

/-- The embedding of `h.hexdigest()` on line 6 of `src/protoid.py`: the
lowercase hexadecimal rendering of the SHA-512 digest. -/
def hexdigest (bs : List Nat) : List Char := hexOfBytes (sha512 bs)

/-- The embedding of `protoid` (lines 3 to 7 of `src/protoid.py`) on the
byte representation of its input: `'0x' + h.hexdigest()[0:8]`. -/
def protoid (bs : List Nat) : String := "0x" ++ String.mk ((hexdigest bs).take 8)

/-- UTF-8 encoding of one character, by scalar-value range. -/
def utf8Bytes (c : Char) : List Nat :=
  let n := c.toNat
  if n < 0x80 then [n]
  else if n < 0x800 then [0xc0 + n / 64, 0x80 + n % 64]
  else if n < 0x10000 then [0xe0 + n / 4096, 0x80 + n / 64 % 64, 0x80 + n % 64]
  else [0xf0 + n / 262144, 0x80 + n / 4096 % 64, 0x80 + n / 64 % 64, 0x80 + n % 64]

/-- The byte representation of a text string (UTF-8; it agrees with the
byte string the program hashes for every string appearing in the program,
all of which are ASCII). -/
def strBytes (s : String) : List Nat := s.data.flatMap utf8Bytes

/-- `protoid` applied to the byte representation of a text string. -/
def protoidS (s : String) : String := protoid (strBytes s)

/-- The computation as the specification words it, for comparison with
`protoid`: apply SHA-512 to the byte representation of the input producing
a 64-byte digest, render the digest as a 128-character lowercase
hexadecimal string, take the first 8 characters of that string, and
prepend the literal `0x`. -/
def specCompute (bs : List Nat) : String :=
  let digest := sha512 bs
  let hexRendering := hexOfBytes digest
  "0x" ++ String.mk (hexRendering.take 8)

/-- Decides whether a character is a lowercase hexadecimal digit,
`[0-9a-f]`. -/
def isLowerHexDigit (c : Char) : Bool :=
  (('0' ≤ c && c ≤ '9') || ('a' ≤ c && c ≤ 'f'))

/-- The single error the program can produce: `hashlib.sha512` raising
`TypeError` when handed a Python 3 `str`.  No `EncodingError` type exists
anywhere in `src/protoid.py`. -/
inductive PyError where
  | typeError
  deriving DecidableEq

/-- A Python 3 runtime value reaching `sha512`: either a text string or a
byte string.  `src/protoid.py` never converts between the two. -/
inductive PyVal where
  | str (s : String)
  | bytes (bs : List Nat)

/-- The embedding of the `hashlib.sha512` call under Python 3 dynamic
typing: a `bytes` argument is hashed, a `str` argument raises `TypeError`
before any hashing (strings must be encoded before hashing). -/
def sha512py : PyVal → Except PyError (List Nat)
  | PyVal.str _ => Except.error PyError.typeError
  | PyVal.bytes bs => Except.ok (sha512 bs)

/-- The embedding of `protoid` over Python 3 runtime values: exactly the
source body, with the `sha512` call made fallible.  There is no encoding
step between the argument and the `sha512` call. -/
def protoidPy (v : PyVal) : Except PyError String :=
  match sha512py v with
  | Except.error e => Except.error e
  | Except.ok digest => Except.ok ("0x" ++ String.mk ((hexOfBytes digest).take 8))

/-- The default version string of line 11 of `src/protoid.py`. -/
def defaultVersion : String := "Testing v0.1"

/-- The choice of the version string in the `__main__` block (lines 11 to
13): the default, overwritten by `sys.argv[1]` when `len(sys.argv) > 1`.
The argument is the full `sys.argv`, whose head is the program name. -/
def chooseVS (argv : List String) : String :=
  if argv.length > 1 then argv.getD 1 defaultVersion else defaultVersion

/-- The two lines the `__main__` block writes to standard output on a
successful run (lines 14 and 15).  `print` with two arguments joins them
with one space, so the first label carries three spaces in total. -/
def cliLines (argv : List String) : List String :=
  let vs := chooseVS argv
  ["Version string:   " ++ vs, "Proto identifier: " ++ protoidS vs]

/-- The standard-output trace of the `__main__` block under Python 3
dynamic typing: `sys.argv` entries are `str`, the first `print` always
runs, and the second `print` is reached only if the `protoid` call on
line 15 returns. -/
def cliOutPy (argv : List String) : List String :=
  let vs := chooseVS argv
  let line1 := "Version string:   " ++ vs
  match protoidPy (PyVal.str vs) with
  | Except.ok pid => [line1, "Proto identifier: " ++ pid]
  | Except.error _ => [line1]

/-! ## Helper lemmas -/

/-- Unfolding of the string structure of `protoid`. -/
theorem protoid_data (bs : List Nat) :
    (protoid bs).data = '0' :: 'x' :: (hexdigest bs).take 8 := rfl

/-- Each big-endian byte of a word is below 256. -/
theorem mem_bytesOfWord_lt {b w : Nat} (hb : b ∈ bytesOfWord w) : b < 256 := by
  simp [bytesOfWord] at hb
  rcases hb with rfl | rfl | rfl | rfl | rfl | rfl | rfl | rfl <;> omega

/-- Every byte of a SHA-512 digest is below 256. -/
theorem sha512_mem_lt (bs : List Nat) : ∀ b ∈ sha512 bs, b < 256 := by
  intro b hb
  simp only [sha512, List.mem_flatMap] at hb
  obtain ⟨w, _, hbw⟩ := hb
  exact mem_bytesOfWord_lt hbw

/-- A SHA-512 digest is exactly 64 bytes. -/
theorem sha512_length (bs : List Nat) : (sha512 bs).length = 64 := by
  simp [sha512, bytesOfWord]

/-- Hexadecimal rendering doubles the length. -/
theorem hexOfBytes_length (l : List Nat) : (hexOfBytes l).length = 2 * l.length := by
  induction l with
  | nil => rfl
  | cons b t ih => simp [hexOfBytes, hexByte] at *; omega

/-- The hexadecimal digest is exactly 128 characters. -/
theorem hexdigest_length (bs : List Nat) : (hexdigest bs).length = 128 := by
  rw [hexdigest, hexOfBytes_length, sha512_length]

/-- `hexChar` of a value below 16 is a lowercase hexadecimal digit. -/
theorem hexChar_lowerHex : ∀ n, n < 16 → isLowerHexDigit (hexChar n) = true := by decide

/-- The rendering of bytes below 256 consists of lowercase hexadecimal
digits only. -/
theorem hexOfBytes_all (l : List Nat) (hl : ∀ b ∈ l, b < 256) :
    (hexOfBytes l).all isLowerHexDigit = true := by
  rw [List.all_eq_true]
  intro c hc
  simp only [hexOfBytes, List.mem_flatMap] at hc
  obtain ⟨b, hb, hcb⟩ := hc
  have hb256 := hl b hb
  simp [hexByte] at hcb
  rcases hcb with rfl | rfl
  · exact hexChar_lowerHex _ (by omega)
  · exact hexChar_lowerHex _ (by omega)

/-- The hexadecimal digest consists of lowercase hexadecimal digits only. -/
theorem hexdigest_all (bs : List Nat) :
    (hexdigest bs).all isLowerHexDigit = true :=
  hexOfBytes_all _ (sha512_mem_lt bs)

/-- A prefix of a list all of whose elements satisfy a predicate again
satisfies it. -/
theorem all_take {p : Char → Bool} {l : List Char} (h : l.all p = true) (n : Nat) :
    (l.take n).all p = true := by
  rw [List.all_eq_true] at h ⊢
  exact fun c hc => h c (List.mem_of_mem_take hc)

set_option maxRecDepth 10000

/-! ## Claims -/

/-- Claim C1: for every input, the result of the computation equals the
literal `0x` followed by the first 8 characters of the 128-character
lowercase hexadecimal rendering of the SHA-512 digest of the byte
representation of the input. -/
theorem claim1_compute_matches_spec (bs : List Nat) :
    protoid bs = specCompute bs ∧
    (sha512 bs).length = 64 ∧
    (hexdigest bs).length = 128 ∧
    (hexdigest bs).all isLowerHexDigit = true :=
  ⟨rfl, sha512_length bs, hexdigest_length bs, hexdigest_all bs⟩

/-- Claim C2: on every input the result matches `0x[0-9a-f]{8}` exactly:
it is 10 characters long, starts with `0x`, and the remaining 8
characters are lowercase hexadecimal digits. -/
theorem claim2_format_invariant (bs : List Nat) :
    (protoid bs).length = 10 ∧
    (protoid bs).data.take 2 = ['0', 'x'] ∧
    ((protoid bs).data.drop 2).length = 8 ∧
    ((protoid bs).data.drop 2).all isLowerHexDigit = true := by
  refine ⟨?_, ?_, ?_, ?_⟩
  · show (protoid bs).data.length = 10
    rw [protoid_data]
    simp [List.length_take, hexdigest_length]
  · rw [protoid_data]
    rfl
  · rw [protoid_data]
    simp [List.length_take, hexdigest_length]
  · rw [protoid_data]
    exact all_take (hexdigest_all bs) 8

/-- Claim C3: the computation is deterministic — it is a pure function of
its input alone, so equal inputs (as bytes or as text) yield equal
outputs; the embedding has no source of randomness, hidden state or
environment access. -/
theorem claim3_deterministic (bs₁ bs₂ : List Nat) (s₁ s₂ : String)
    (hb : bs₁ = bs₂) (hs : s₁ = s₂) :
    protoid bs₁ = protoid bs₂ ∧ protoidS s₁ = protoidS s₂ :=
  ⟨by rw [hb], by rw [hs]⟩

/-- Witness for claim C3 at the concrete inputs `[0]` and `"a"`. -/
theorem claim3_deterministic_witness :
    protoid [0] = protoid [0] ∧ protoidS "a" = protoidS "a" :=
  claim3_deterministic [0] [0] "a" "a" rfl rfl

/-- Claim C4 counterexample: the input `"A"` is encodable — its byte
representation is `[65]` — yet the computation fails on it under Python 3,
and the failure is the `TypeError` from `hashlib`, not an encoding error.
The claim that the computation fails exactly on non-encodable inputs and
returns normally on every encodable input is therefore false of the code:
`src/protoid.py` contains no encoding step at all. -/
theorem claim4_counterexample :
    protoidPy (PyVal.str "A") = Except.error PyError.typeError ∧
    strBytes "A" = [65] :=
  ⟨rfl, by decide⟩

/-- Claim C4 as amended: the computation performs no encoding and never
signals an encoding error.  Under Python 3 it fails with `TypeError` on
every `str` input, encodable or not, and returns normally on every
`bytes` input. -/
theorem claim4_no_encoding_error (s : String) (bs : List Nat) :
    protoidPy (PyVal.str s) = Except.error PyError.typeError ∧
    protoidPy (PyVal.bytes bs) = Except.ok (protoid bs) :=
  ⟨rfl, rfl⟩

/-- Claim C5: on the empty input the computation returns exactly
`0xcf83e135`, the literal `0x` followed by the first 8 hexadecimal
characters of the SHA-512 digest of the empty byte sequence. -/
theorem claim5_empty_input :
    protoidS "" = "0xcf83e135" ∧ protoid [] = "0xcf83e135" ∧ strBytes "" = [] :=
  ⟨by decide, by decide, rfl⟩

/-- Claim C6 counterexample: at the concrete zero-argument invocation the
Python 3 run emits only the version-string line — the identifier line,
which would read `Proto identifier: 0x0c229d94`, is never printed,
because the `protoid` call on line 15 raises `TypeError` after the first
`print`.  The claim that the zero-argument command line prints the
default string and its computed identifier is therefore false of the
code as it runs under Python 3. -/
theorem claim6_counterexample :
    cliOutPy ["./protoid.py"] = ["Version string:   Testing v0.1"] ∧
    "Proto identifier: 0x0c229d94" ∉ cliOutPy ["./protoid.py"] ∧
    protoidS defaultVersion = "0x0c229d94" :=
  ⟨by decide, by decide, by decide⟩

/-- Claim C6 as amended: invoked with zero arguments beyond the program
name, the command line uses the fixed default version string
`Testing v0.1` and prints the default-string line; the identifier line is
produced only if the `protoid` call returns — on that success path the
two lines are the default string and its identifier `0x0c229d94` — while
the Python 3 run raises on line 15 and emits the default-string line
only. -/
theorem claim6_cli_default (prog : String) :
    chooseVS [prog] = defaultVersion ∧
    cliLines [prog] = ["Version string:   Testing v0.1", "Proto identifier: 0x0c229d94"] ∧
    cliOutPy [prog] = ["Version string:   Testing v0.1"] := by
  refine ⟨rfl, ?_, ?_⟩
  · have h : cliLines [prog] =
        ["Version string:   " ++ defaultVersion,
         "Proto identifier: " ++ protoidS defaultVersion] := rfl
    rw [h]
    decide
  · have h : cliOutPy [prog] = ["Version string:   " ++ defaultVersion] := rfl
    rw [h]
    decide

/-- Claim C7: invoked with one or more arguments, the command line uses
exactly the first argument as the version string and ignores all
additional arguments; the output does not depend on the extras. -/
theorem claim7_cli_extra_args (prog a : String) (extra : List String) :
    chooseVS (prog :: a :: extra) = a ∧
    cliLines (prog :: a :: extra) = cliLines [prog, a] := by
  constructor
  · simp [chooseVS]
  · simp [cliLines, chooseVS]

/-- Claim C8: on a successful run the command line prints exactly two
lines, in order: the chosen version string behind the label
`Version string:`, then the computed identifier behind the label
`Proto identifier:`. -/
theorem claim8_cli_output_lines (argv : List String) :
    cliLines argv =
      ["Version string:   " ++ chooseVS argv,
       "Proto identifier: " ++ protoidS (chooseVS argv)] ∧
    (cliLines argv).length = 2 :=
  ⟨rfl, rfl⟩

/-- Claim C9 counterexample: in the Python 3 run the `protoid` call on
line 15 fails, yet the output is not empty — the first `print` on line 14
has already written the version-string line, so exactly one line is
emitted, contradicting both-lines-or-nothing. -/
theorem claim9_counterexample :
    cliOutPy ["protoid"] = ["Version string:   Testing v0.1"] ∧
    protoidPy (PyVal.str defaultVersion) = Except.error PyError.typeError ∧
    (cliOutPy ["protoid"]).length = 1 :=
  ⟨by decide, rfl, rfl⟩

/-- Claim C9 as amended: if the computation fails when invoked from the
command line, the output is exactly the one version-string line — the
line printed before the failing call — and never the identifier line. -/
theorem claim9_first_line_only (argv : List String) (e : PyError)
    (h : protoidPy (PyVal.str (chooseVS argv)) = Except.error e) :
    cliOutPy argv = ["Version string:   " ++ chooseVS argv] := by
  simp only [cliOutPy]
  rw [h]

/-- Witness for the amended claim C9 at the concrete invocation with the
single argument `x`. -/
theorem claim9_first_line_only_witness :
    cliOutPy ["prog", "x"] = ["Version string:   " ++ chooseVS ["prog", "x"]] :=
  claim9_first_line_only ["prog", "x"] PyError.typeError rfl

/-- Claim C10: `protoid` performs no text-encoding step — it passes its
argument directly to `sha512`, so a Python 3 `str` argument always fails
and is never converted to bytes by `protoid` itself, every `bytes`
argument returns normally, and slicing the fixed-length 128-character
hexadecimal digest always yields exactly 8 characters. -/
theorem claim10_no_encoding_step (s : String) (bs : List Nat) :
    (protoidPy (PyVal.str s)).isOk = false ∧
    (protoidPy (PyVal.bytes bs)).isOk = true ∧
    ((hexdigest bs).take 8).length = 8 := by
  refine ⟨rfl, rfl, ?_⟩
  simp [List.length_take, hexdigest_length]

end Protoid
